import Mathlib

/-!
Shallow embedding of `src/portal/main.py`, a FastAPI web portal that
delegates authentication to an OpenID Connect provider (Keycloak).

The session is the per-browser state the handlers read and write; upstream
HTTP calls (token exchange, user-info) are modelled as oracle inputs to the
`callback` handler: either a response or a raised `httpx` error.
Python truthiness on the values the code tests (`if not user:` on a claims
dict, `if access_token:` / `if not access_token:` on a string) is embedded
explicitly: `none`, the empty claims map and the empty string are falsy.
-/

namespace Portal

/-- User claims returned by the identity provider: an unstructured JSON
object, embedded as a key-value list (Python dict). -/
abbrev Claims := List (String × String)

/-- The per-browser session: the two keys the application reads and writes
(`request.session["user"]`, `request.session["access_token"]`). -/
structure Session where
  user : Option Claims
  access_token : Option String

deriving instance DecidableEq, Repr for Session

/-- Environment-driven configuration (`os.getenv` reads at the top of
`main.py`). -/
structure Config where
  keycloak_url_public : String
  keycloak_url_internal : String
  keycloak_realm : String
  keycloak_client_id : String
  keycloak_client_secret : String
  redirect_uri : String
  base_path : String

/-- The default values of the environment variables in `main.py`. -/
def default_config : Config :=
  ⟨"http://localhost:8080", "http://keycloak:8080", "portal", "portal-client",
   "", "http://localhost:8100/callback", "/portal"⟩

/-- Python truthiness of an optional dict: `None` and `{}` are falsy. -/
def py_truthy_dict : Option Claims → Bool
  | none => false
  | some u => !u.isEmpty

/-- Python truthiness of an optional string: `None` and `""` are falsy. -/
def py_truthy_str : Option String → Bool
  | none => false
  | some t => !t.isEmpty

/-- `fastapi.HTTPException`: a status code and a detail string. -/
structure HTTPException where
  status_code : Nat
  detail : String

deriving instance DecidableEq, Repr for HTTPException

/-- The context of a rendered `error.html` template response: status code,
localized title and message, and the `user is not None` flag. -/
structure ErrorPage where
  status_code : Nat
  error_title : String
  error_message : String
  authenticated : Bool

deriving instance DecidableEq, Repr for ErrorPage

/-- A response produced by a route: a rendered page template, a
`RedirectResponse`, a rendered `error.html`, or the `/health` JSON body. -/
inductive Response where
  | html (templateName : String) (status_code : Nat)
  | redirect (url : String) (status_code : Nat)
  | errorHtml (page : ErrorPage)
  | healthJson

deriving instance DecidableEq, Repr for Response

/-- The HTTP status code of a response (template responses render with the
status they were given; `/health` returns 200). -/
def Response.status : Response → Nat
  | .html _ c => c
  | .redirect _ c => c
  | .errorHtml p => p.status_code
  | .healthJson => 200

/-- `get_current_user`: `request.session.get("user")`. -/
def get_current_user (s : Session) : Option Claims := s.user

/-- `require_auth`: raises 401 when `not user` (absent or empty claims
dict), otherwise returns the user. -/
def require_auth (s : Session) : Except HTTPException Claims :=
  match get_current_user s with
  | none => .error ⟨401, "Not authenticated"⟩
  | some u =>
    if u.isEmpty then .error ⟨401, "Not authenticated"⟩ else .ok u

/-- `get_error_message`: the localized (Spanish) title and message for a
status code, with a generic fallback. -/
def get_error_message (status_code : Nat) : String × String :=
  match status_code with
  | 400 => ("Solicitud Incorrecta", "La solicitud no pudo ser procesada debido a un error del cliente.")
  | 401 => ("No Autorizado", "Debe iniciar sesión para acceder a este recurso.")
  | 403 => ("Acceso Denegado", "No tiene permisos para acceder a este recurso.")
  | 404 => ("Página No Encontrada", "El recurso solicitado no existe.")
  | 405 => ("Método No Permitido", "El método HTTP utilizado no está permitido para este recurso.")
  | 408 => ("Tiempo de Espera Agotado", "La solicitud tardó demasiado tiempo en procesarse.")
  | 429 => ("Demasiadas Solicitudes", "Ha excedido el límite de solicitudes permitidas.")
  | 500 => ("Error Interno del Servidor", "Ocurrió un error en el servidor. Intente nuevamente más tarde.")
  | 501 => ("No Implementado", "Esta funcionalidad está en desarrollo.")
  | 502 => ("Error de Puerta de Enlace", "El servidor recibió una respuesta inválida.")
  | 503 => ("Servicio No Disponible", "El servicio está temporalmente fuera de servicio.")
  | 504 => ("Tiempo de Espera de Puerta de Enlace", "El servidor no respondió a tiempo.")
  | _ => ("Error", "Ha ocurrido un error inesperado.")

/-- Render `error.html` for a status code, as every error handler does:
title/message from `get_error_message`, `authenticated = user is not None`. -/
def error_template (s : Session) (status_code : Nat) : Response :=
  .errorHtml ⟨status_code, (get_error_message status_code).1,
              (get_error_message status_code).2, (get_current_user s).isSome⟩

/-- The registered handler for raised `HTTPException`s
(`fastapi_http_exception_handler` / `custom_http_exception_handler`):
renders `error.html` with the exception's status code. -/
def http_exception_handler (s : Session) (e : HTTPException) : Response :=
  error_template s e.status_code

/-- Run a route body: a raised `HTTPException` is turned into the rendered
error page by the exception handler, and the session is left as it was. -/
def run_route (s : Session) (r : Except HTTPException (Response × Session)) :
    Response × Session :=
  match r with
  | .ok p => p
  | .error e => (http_exception_handler s e, s)

/-- `GET /`: renders `index.html`; never touches the session. -/
def index (cfg : Config) (s : Session) : Response × Session :=
  (.html "index.html" 200, s)

/-- The provider authorization URL built by `login`. -/
def auth_url (cfg : Config) : String :=
  cfg.keycloak_url_public ++ "/realms/" ++ cfg.keycloak_realm ++
  "/protocol/openid-connect/auth" ++
  "?client_id=" ++ cfg.keycloak_client_id ++
  "&redirect_uri=" ++ cfg.redirect_uri ++
  "&response_type=code" ++
  "&scope=openid profile email"

/-- `GET /login`: redirect to `BASE_PATH/home` when the session user is
truthy, otherwise redirect to the provider authorization URL
(`RedirectResponse` default status 307). -/
def login (cfg : Config) (s : Session) : Response × Session :=
  if py_truthy_dict (get_current_user s) then
    (.redirect (cfg.base_path ++ "/home") 307, s)
  else
    (.redirect (auth_url cfg) 307, s)

/-- `GET /contact`: unconditionally raises 501. -/
def contact (s : Session) : Except HTTPException (Response × Session) :=
  .error ⟨501, "Contacto en desarrollo"⟩

/-- An `httpx` error raised by an upstream call. `httpx.TimeoutException`
is a subclass of `httpx.RequestError`, so every error value is a
`RequestError` and `is_timeout` marks the timeout subclass. -/
structure HttpxError where
  is_timeout : Bool
  msg : String

deriving instance DecidableEq, Repr for HttpxError

/-- `isinstance(e, httpx.TimeoutException)`. -/
def is_instance_timeout_exception (e : HttpxError) : Bool := e.is_timeout

/-- `isinstance(e, httpx.RequestError)`: true for every `httpx` error,
timeouts included. -/
def is_instance_request_error (_ : HttpxError) : Bool := true

/-- The `except` clauses of `callback`, tried in source order:
`httpx.TimeoutException` maps to 504, then `httpx.RequestError` to 502;
an exception caught by neither would propagate as a 500. -/
def handle_httpx_error (e : HttpxError) : HTTPException :=
  if is_instance_timeout_exception e then
    ⟨504, "Timeout connecting to Keycloak"⟩
  else if is_instance_request_error e then
    ⟨502, "Connection error: " ++ e.msg⟩
  else
    ⟨500, "Internal Server Error"⟩

/-- The token endpoint's answer as `callback` consumes it: status code,
body text, and `tokens.get("access_token")` from the parsed JSON body. -/
structure TokenResponse where
  status_code : Nat
  text : String
  access_token : Option String

deriving instance DecidableEq, Repr for TokenResponse

/-- The user-info endpoint's answer as `callback` consumes it: status code,
body text, and the parsed JSON claims. -/
structure UserinfoResponse where
  status_code : Nat
  text : String
  claims : Claims

deriving instance DecidableEq, Repr for UserinfoResponse

/-- Outcome of one upstream HTTP call: a response, or a raised error. -/
inductive HttpResult (α : Type) where
  | ok (resp : α)
  | raises (e : HttpxError)

/-- The form data `callback` posts to the token endpoint. -/
def token_request_data (cfg : Config) (code : String) : List (String × String) :=
  [("grant_type", "authorization_code"),
   ("client_id", cfg.keycloak_client_id),
   ("client_secret", cfg.keycloak_client_secret),
   ("code", code),
   ("redirect_uri", cfg.redirect_uri)]

/-- `GET /callback?code=`: exchanges the code at the token endpoint, fetches
user-info with the bearer token, stores claims and token in the session and
redirects to `BASE_PATH/home`. Non-200 token response: 400 with the upstream
body; falsy (`None` or empty) access token: 400; non-200 user-info response:
400 with the upstream body; raised timeout: 504; other raised request error:
502. The session is written only on the full success path. -/
def callback (cfg : Config) (s : Session) (code : String)
    (token_call : HttpResult TokenResponse)
    (userinfo_call : HttpResult UserinfoResponse) :
    Except HTTPException (Response × Session) :=
  match token_call with
  | .raises e => .error (handle_httpx_error e)
  | .ok token_response =>
    if token_response.status_code ≠ 200 then
      .error ⟨400, "Token exchange failed: " ++ token_response.text⟩
    else
      match token_response.access_token with
      | none => .error ⟨400, "No access token received"⟩
      | some access_token =>
        if access_token.isEmpty then
          .error ⟨400, "No access token received"⟩
        else
          match userinfo_call with
          | .raises e => .error (handle_httpx_error e)
          | .ok userinfo_response =>
            if userinfo_response.status_code ≠ 200 then
              .error ⟨400, "Failed to get user info: " ++ userinfo_response.text⟩
            else
              .ok (.redirect (cfg.base_path ++ "/home") 307,
                   { s with user := some userinfo_response.claims,
                            access_token := some access_token })

/-- `GET /home`: protected by `Depends(require_auth)`; renders `home.html`. -/
def home (s : Session) : Except HTTPException (Response × Session) :=
  match require_auth s with
  | .error e => .error e
  | .ok _user => .ok (.html "home.html" 200, s)

/-- `GET /profile`: protected by `Depends(require_auth)`; then raises 501. -/
def profile (s : Session) : Except HTTPException (Response × Session) :=
  match require_auth s with
  | .error e => .error e
  | .ok _user => .error ⟨501, "Perfil en desarrollo"⟩

/-- `GET /settings`: protected by `Depends(require_auth)`; then raises 501. -/
def settings (s : Session) : Except HTTPException (Response × Session) :=
  match require_auth s with
  | .error e => .error e
  | .ok _user => .error ⟨501, "Configuración en desarrollo"⟩

/-- `GET /help`: protected by `Depends(require_auth)`; then raises 501. -/
def help_page (s : Session) : Except HTTPException (Response × Session) :=
  match require_auth s with
  | .error e => .error e
  | .ok _user => .error ⟨501, "Ayuda en desarrollo"⟩

/-- Python `s.rsplit(sep, 1)[0]`: everything before the last occurrence of
`sep` in `s`, or `s` itself when `sep` does not occur. -/
def rsplit1_head (s sep : String) : String :=
  let parts := s.splitOn sep
  if parts.length ≤ 1 then s else String.intercalate sep parts.dropLast

/-- The provider logout URL built by `logout`, carrying the
`post_logout_redirect_uri` and `client_id` query parameters. -/
def logout_url (cfg : Config) : String :=
  cfg.keycloak_url_public ++ "/realms/" ++ cfg.keycloak_realm ++
  "/protocol/openid-connect/logout" ++
  "?post_logout_redirect_uri=" ++ (rsplit1_head cfg.redirect_uri "/callback" ++ "/") ++
  "&client_id=" ++ cfg.keycloak_client_id

/-- `GET /logout`: reads the access token, clears the whole session, then
redirects (302) to the provider logout URL when the token was truthy, and
to `BASE_PATH + "/"` otherwise. -/
def logout (cfg : Config) (s : Session) : Response × Session :=
  let access_token := s.access_token
  let cleared : Session := ⟨none, none⟩
  if py_truthy_str access_token then
    (.redirect (logout_url cfg) 302, cleared)
  else
    (.redirect (cfg.base_path ++ "/") 302, cleared)

/-- `GET /health`: static JSON body, session untouched. -/
def health (s : Session) : Response × Session :=
  (.healthJson, s)

/-- The catch-all route: renders the 404 error page directly. -/
def catch_all_404 (cfg : Config) (s : Session) (full_path : String) :
    Response × Session :=
  (error_template s 404, s)

/-! ## Claim theorems -/

/-- C1 counterexample: a session whose `user` entry is present but holds an
empty claims map still gets a 401 from the protected `/home` route, because
`require_auth` tests Python truthiness (`if not user:`), not key presence. -/
theorem C1_counterexample :
    (Session.mk (some []) none).user = some [] ∧
    (run_route ⟨some [], none⟩ (home ⟨some [], none⟩)).1.status = 401 :=
  ⟨rfl, rfl⟩

/-- C1 (amended): a request to a protected route (`/home`, `/profile`,
`/settings`, `/help`) whose session holds no `user` entry — or an empty
claims map — gets status 401; when the session holds a non-empty `user`
entry, `require_auth` returns that user and no 401 is produced. -/
theorem C1_protected_auth (s : Session) :
    ((s.user = none ∨ s.user = some []) →
      (run_route s (home s)).1.status = 401 ∧
      (run_route s (profile s)).1.status = 401 ∧
      (run_route s (settings s)).1.status = 401 ∧
      (run_route s (help_page s)).1.status = 401) ∧
    (∀ u, s.user = some u → u ≠ [] →
      require_auth s = .ok u ∧
      (run_route s (home s)).1.status = 200 ∧
      (run_route s (home s)).1.status ≠ 401 ∧
      (run_route s (profile s)).1.status ≠ 401 ∧
      (run_route s (settings s)).1.status ≠ 401 ∧
      (run_route s (help_page s)).1.status ≠ 401) := by
  constructor
  · rintro (h | h) <;>
      refine ⟨?_, ?_, ?_, ?_⟩ <;>
        simp [run_route, home, profile, settings, help_page, require_auth,
              get_current_user, h, http_exception_handler, error_template,
              Response.status]
  · intro u hu hne
    cases u with
    | nil => exact absurd rfl hne
    | cons hd tl =>
      refine ⟨?_, ?_, ?_, ?_, ?_, ?_⟩ <;>
        simp [run_route, home, profile, settings, help_page, require_auth,
              get_current_user, hu, http_exception_handler, error_template,
              Response.status]

/-- C1 witness: concrete instances of `C1_protected_auth` — the empty
session is refused with 401, a session with a non-empty claims map reaches
`home.html` with status 200. -/
theorem C1_protected_auth_witness :
    (run_route ⟨none, none⟩ (home ⟨none, none⟩)).1.status = 401 ∧
    require_auth ⟨some [("sub", "alice")], none⟩ = .ok [("sub", "alice")] ∧
    (run_route ⟨some [("sub", "alice")], none⟩
      (home ⟨some [("sub", "alice")], none⟩)).1.status = 200 := by
  refine ⟨((C1_protected_auth ⟨none, none⟩).1 (Or.inl rfl)).1, ?_, ?_⟩
  · exact ((C1_protected_auth ⟨some [("sub", "alice")], none⟩).2
      [("sub", "alice")] rfl (by decide)).1
  · exact ((C1_protected_auth ⟨some [("sub", "alice")], none⟩).2
      [("sub", "alice")] rfl (by decide)).2.1

/-- C2: when the token endpoint answers 200 with a (non-empty) access
token and the user-info endpoint answers 200, `callback` stores the
user-info claims under `user` and the token under `access_token`, and
redirects to `BASE_PATH + "/home"`. -/
theorem C2_callback_success (cfg : Config) (s : Session) (code : String)
    (tr : TokenResponse) (ur : UserinfoResponse) (t : String)
    (h1 : tr.status_code = 200) (h2 : tr.access_token = some t)
    (h3 : t.isEmpty = false) (h4 : ur.status_code = 200) :
    callback cfg s code (.ok tr) (.ok ur) =
      .ok (.redirect (cfg.base_path ++ "/home") 307,
           ⟨some ur.claims, some t⟩) := by
  simp [callback, h1, h2, h3, h4]

/-- C2 witness: `C2_callback_success` at a concrete successful exchange. -/
theorem C2_callback_success_witness :
    callback default_config ⟨none, none⟩ "code123"
        (.ok ⟨200, "tokenbody", some "tok"⟩)
        (.ok ⟨200, "uibody", [("sub", "alice")]⟩) =
      .ok (.redirect (default_config.base_path ++ "/home") 307,
           ⟨some [("sub", "alice")], some "tok"⟩) :=
  C2_callback_success default_config ⟨none, none⟩ "code123" _ _ "tok"
    rfl rfl (by decide) rfl

/-- C3: when the token endpoint answers with a status other than 200,
`callback` raises 400 and the detail carries the upstream body, and the
rendered response has status 400. -/
theorem C3_token_non200 (cfg : Config) (s : Session) (code : String)
    (tr : TokenResponse) (uc : HttpResult UserinfoResponse)
    (h : tr.status_code ≠ 200) :
    callback cfg s code (.ok tr) uc =
      .error ⟨400, "Token exchange failed: " ++ tr.text⟩ ∧
    (run_route s (callback cfg s code (.ok tr) uc)).1.status = 400 := by
  have hc : callback cfg s code (.ok tr) uc =
      .error ⟨400, "Token exchange failed: " ++ tr.text⟩ := by
    simp [callback, h]
  exact ⟨hc, by rw [hc]; rfl⟩

/-- C3 witness: `C3_token_non200` at a concrete 500 token response. -/
theorem C3_token_non200_witness :
    callback default_config ⟨none, none⟩ "c" (.ok ⟨500, "boom", none⟩)
        (.ok ⟨200, "", []⟩) =
      .error ⟨400, "Token exchange failed: " ++ "boom"⟩ ∧
    (run_route ⟨none, none⟩ (callback default_config ⟨none, none⟩ "c"
      (.ok ⟨500, "boom", none⟩) (.ok ⟨200, "", []⟩))).1.status = 400 :=
  C3_token_non200 default_config ⟨none, none⟩ "c" _ _ (by decide)

/-- C4: a raised timeout during either upstream call yields 504 and a
raised non-timeout connection error yields 502; every error value is an
`httpx.RequestError` (timeouts included), yet a timeout is never mapped to
502 because the timeout `except` clause is tried first. -/
theorem C4_timeout_504_conn_502 (cfg : Config) (s : Session) (code : String)
    (e : HttpxError) (uc : HttpResult UserinfoResponse)
    (tr : TokenResponse) (t : String)
    (h1 : tr.status_code = 200) (h2 : tr.access_token = some t)
    (h3 : t.isEmpty = false) :
    is_instance_request_error e = true ∧
    callback cfg s code (.raises e) uc = .error (handle_httpx_error e) ∧
    callback cfg s code (.ok tr) (.raises e) = .error (handle_httpx_error e) ∧
    (handle_httpx_error e).status_code = (if e.is_timeout then 504 else 502) := by
  refine ⟨rfl, rfl, ?_, ?_⟩
  · simp [callback, h1, h2, h3]
  · cases ht : e.is_timeout <;>
      simp [handle_httpx_error, is_instance_timeout_exception,
            is_instance_request_error, ht]

/-- C4 witness: `C4_timeout_504_conn_502` at a concrete timeout error. -/
theorem C4_timeout_504_conn_502_witness :
    is_instance_request_error ⟨true, ""⟩ = true ∧
    callback default_config ⟨none, none⟩ "c" (.raises ⟨true, ""⟩)
        (.ok ⟨200, "", []⟩) =
      .error (handle_httpx_error ⟨true, ""⟩) ∧
    callback default_config ⟨none, none⟩ "c" (.ok ⟨200, "tb", some "tok"⟩)
        (.raises ⟨true, ""⟩) =
      .error (handle_httpx_error ⟨true, ""⟩) ∧
    (handle_httpx_error ⟨true, ""⟩).status_code = 504 :=
  C4_timeout_504_conn_502 default_config ⟨none, none⟩ "c" ⟨true, ""⟩ _ _
    "tok" rfl rfl (by decide)

/-- C5 counterexample: a session holding an `access_token` entry with the
empty string is cleared but redirected to `BASE_PATH + "/"`, not to the
provider logout endpoint, because `logout` tests Python truthiness
(`if access_token:`). -/
theorem C5_counterexample :
    (Session.mk none (some "")).access_token = some "" ∧
    logout default_config ⟨none, some ""⟩ =
      (.redirect (default_config.base_path ++ "/") 302, ⟨none, none⟩) ∧
    (logout default_config ⟨none, some ""⟩).1 ≠
      .redirect (logout_url default_config) 302 := by
  refine ⟨rfl, rfl, ?_⟩
  decide

/-- C5 (amended): every `logout` clears the session; when the session held
a non-empty `access_token` the response is a 302 redirect to the provider
logout URL (which carries `post_logout_redirect_uri`), and when it held no
(truthy) token the response is a 302 redirect to `BASE_PATH + "/"`. -/
theorem C5_logout (cfg : Config) (s : Session) :
    (logout cfg s).2 = ⟨none, none⟩ ∧
    (∀ t, s.access_token = some t → t.isEmpty = false →
      (logout cfg s).1 = .redirect (logout_url cfg) 302) ∧
    (py_truthy_str s.access_token = false →
      (logout cfg s).1 = .redirect (cfg.base_path ++ "/") 302) := by
  refine ⟨?_, ?_, ?_⟩
  · cases h : py_truthy_str s.access_token <;> simp [logout, h]
  · intro t ht hte
    have h : py_truthy_str s.access_token = true := by
      simp [py_truthy_str, ht, hte]
    simp [logout, h]
  · intro h
    simp [logout, h]

/-- C5 witness: `C5_logout` at a session with a token and at the empty
session. -/
theorem C5_logout_witness :
    (logout default_config ⟨some [], some "tok"⟩).2 = ⟨none, none⟩ ∧
    (logout default_config ⟨some [], some "tok"⟩).1 =
      .redirect (logout_url default_config) 302 ∧
    (logout default_config ⟨none, none⟩).1 =
      .redirect (default_config.base_path ++ "/") 302 := by
  refine ⟨(C5_logout default_config ⟨some [], some "tok"⟩).1, ?_, ?_⟩
  · exact (C5_logout default_config ⟨some [], some "tok"⟩).2.1 "tok" rfl
      (by decide)
  · exact (C5_logout default_config ⟨none, none⟩).2.2 (by decide)

/-- C6: when the token exchange succeeds (200 with a non-empty access
token) but the user-info endpoint answers with a status other than 200,
`callback` raises 400 with the user-info upstream body in the detail, and
the rendered response has status 400. -/
theorem C6_userinfo_non200 (cfg : Config) (s : Session) (code : String)
    (tr : TokenResponse) (ur : UserinfoResponse) (t : String)
    (h1 : tr.status_code = 200) (h2 : tr.access_token = some t)
    (h3 : t.isEmpty = false) (h4 : ur.status_code ≠ 200) :
    callback cfg s code (.ok tr) (.ok ur) =
      .error ⟨400, "Failed to get user info: " ++ ur.text⟩ ∧
    (run_route s (callback cfg s code (.ok tr) (.ok ur))).1.status = 400 := by
  have hc : callback cfg s code (.ok tr) (.ok ur) =
      .error ⟨400, "Failed to get user info: " ++ ur.text⟩ := by
    simp [callback, h1, h2, h3, h4]
  exact ⟨hc, by rw [hc]; rfl⟩

/-- C6 witness: `C6_userinfo_non200` at a concrete 403 user-info answer. -/
theorem C6_userinfo_non200_witness :
    callback default_config ⟨none, none⟩ "c" (.ok ⟨200, "tb", some "tok"⟩)
        (.ok ⟨403, "denied", []⟩) =
      .error ⟨400, "Failed to get user info: " ++ "denied"⟩ ∧
    (run_route ⟨none, none⟩ (callback default_config ⟨none, none⟩ "c"
      (.ok ⟨200, "tb", some "tok"⟩) (.ok ⟨403, "denied", []⟩))).1.status = 400 :=
  C6_userinfo_non200 default_config ⟨none, none⟩ "c" _ _ "tok"
    rfl rfl (by decide) (by decide)

/-- C7 counterexample: an unauthenticated request to the stub route
`/profile` gets 401, not 501, because `require_auth` runs as a dependency
before the 501 is raised. -/
theorem C7_counterexample :
    (run_route ⟨none, none⟩ (profile ⟨none, none⟩)).1.status = 401 ∧
    (run_route ⟨none, none⟩ (profile ⟨none, none⟩)).1.status ≠ 501 :=
  ⟨rfl, by decide⟩

/-- C7 (amended): `/contact` answers 501 on every request; the stub routes
`/profile`, `/settings` and `/help` answer 501 only when the session holds
a non-empty `user` entry, and 401 when it holds none (or an empty one). -/
theorem C7_stub_routes (s : Session) :
    (run_route s (contact s)).1.status = 501 ∧
    (∀ u, s.user = some u → u ≠ [] →
      (run_route s (profile s)).1.status = 501 ∧
      (run_route s (settings s)).1.status = 501 ∧
      (run_route s (help_page s)).1.status = 501) ∧
    ((s.user = none ∨ s.user = some []) →
      (run_route s (profile s)).1.status = 401 ∧
      (run_route s (settings s)).1.status = 401 ∧
      (run_route s (help_page s)).1.status = 401) := by
  refine ⟨rfl, ?_, ?_⟩
  · intro u hu hne
    cases u with
    | nil => exact absurd rfl hne
    | cons hd tl =>
      refine ⟨?_, ?_, ?_⟩ <;>
        simp [run_route, profile, settings, help_page, require_auth,
              get_current_user, hu, http_exception_handler, error_template,
              Response.status]
  · rintro (h | h) <;>
      refine ⟨?_, ?_, ?_⟩ <;>
        simp [run_route, profile, settings, help_page, require_auth,
              get_current_user, h, http_exception_handler, error_template,
              Response.status]

/-- C7 witness: `C7_stub_routes` at an authenticated session (501 on the
gated stubs) and the 501 of `/contact`. -/
theorem C7_stub_routes_witness :
    (run_route ⟨none, none⟩ (contact ⟨none, none⟩)).1.status = 501 ∧
    (run_route ⟨some [("sub", "alice")], none⟩
      (profile ⟨some [("sub", "alice")], none⟩)).1.status = 501 := by
  refine ⟨(C7_stub_routes ⟨none, none⟩).1, ?_⟩
  exact ((C7_stub_routes ⟨some [("sub", "alice")], none⟩).2.1
    [("sub", "alice")] rfl (by decide)).1

/-- C8: the session is modified only by `callback` and `logout`; every
other handler — index, login, contact, home, profile, settings, help,
health, the catch-all, and the error handlers (the `.error` arm of
`run_route`) — returns the session unchanged. -/
theorem C8_session_frame (cfg : Config) (s : Session) (p : String)
    (e : HTTPException) :
    (index cfg s).2 = s ∧
    (login cfg s).2 = s ∧
    (run_route s (contact s)).2 = s ∧
    (run_route s (home s)).2 = s ∧
    (run_route s (profile s)).2 = s ∧
    (run_route s (settings s)).2 = s ∧
    (run_route s (help_page s)).2 = s ∧
    (health s).2 = s ∧
    (catch_all_404 cfg s p).2 = s ∧
    (run_route s (.error e)).2 = s := by
  obtain ⟨u, a⟩ := s
  rcases u with _ | ⟨_ | ⟨hd, tl⟩⟩ <;>
    exact ⟨rfl, rfl, rfl, rfl, rfl, rfl, rfl, rfl, rfl, rfl⟩

/-- C9: callback failure is atomic — whenever `callback` raises an error
(whose status is always 400, 502 or 504, the missing-access-token case
yielding 400 among them), the rendered route leaves the session unchanged. -/
theorem C9_callback_error_atomic (cfg : Config) (s : Session) (code : String)
    (tc : HttpResult TokenResponse) (uc : HttpResult UserinfoResponse)
    (e : HTTPException)
    (h : callback cfg s code tc uc = .error e) :
    (run_route s (callback cfg s code tc uc)).2 = s ∧
    (e.status_code = 400 ∨ e.status_code = 502 ∨ e.status_code = 504) := by
  constructor
  · rw [h]; rfl
  · unfold callback at h
    repeat' split at h
    all_goals try exact Except.noConfusion h
    all_goals injection h with h
    all_goals subst h
    all_goals try exact Or.inl rfl
    all_goals
      simp only [handle_httpx_error]
      split_ifs <;> simp_all [is_instance_request_error]

/-- C9 witness: `C9_callback_error_atomic` at a concrete failing token
exchange. -/
theorem C9_callback_error_atomic_witness :
    (run_route ⟨none, none⟩ (callback default_config ⟨none, none⟩ "c"
      (.ok ⟨500, "boom", none⟩) (.ok ⟨200, "", []⟩))).2 = ⟨none, none⟩ ∧
    ((HTTPException.mk 400 ("Token exchange failed: " ++ "boom")).status_code = 400 ∨
     (HTTPException.mk 400 ("Token exchange failed: " ++ "boom")).status_code = 502 ∨
     (HTTPException.mk 400 ("Token exchange failed: " ++ "boom")).status_code = 504) :=
  C9_callback_error_atomic default_config ⟨none, none⟩ "c"
    (.ok ⟨500, "boom", none⟩) (.ok ⟨200, "", []⟩)
    ⟨400, "Token exchange failed: " ++ "boom"⟩ rfl

/-- C10 counterexample: a session whose `user` entry is present but holds
an empty claims map is sent to the provider authorization URL by `/login`,
not to `BASE_PATH + "/home"`, because `login` tests Python truthiness. -/
theorem C10_counterexample :
    (Session.mk (some []) none).user = some [] ∧
    login default_config ⟨some [], none⟩ =
      (.redirect (auth_url default_config) 307, ⟨some [], none⟩) ∧
    (login default_config ⟨some [], none⟩).1 ≠
      .redirect (default_config.base_path ++ "/home") 307 := by
  refine ⟨rfl, rfl, ?_⟩
  decide

/-- C10 (amended): `/login` with a non-empty `user` entry redirects to
`BASE_PATH + "/home"` without touching the authorization URL; with no (or
an empty) `user` entry it redirects to the provider authorization URL,
which carries `client_id`, `redirect_uri`, `response_type=code` and the
`openid profile email` scopes. -/
theorem C10_login (cfg : Config) (s : Session) :
    (∀ u, s.user = some u → u ≠ [] →
      login cfg s = (.redirect (cfg.base_path ++ "/home") 307, s)) ∧
    ((s.user = none ∨ s.user = some []) →
      login cfg s = (.redirect (auth_url cfg) 307, s) ∧
      auth_url cfg =
        cfg.keycloak_url_public ++ "/realms/" ++ cfg.keycloak_realm ++
        "/protocol/openid-connect/auth" ++ "?client_id=" ++
        cfg.keycloak_client_id ++ "&redirect_uri=" ++ cfg.redirect_uri ++
        "&response_type=code" ++ "&scope=openid profile email") := by
  constructor
  · intro u hu hne
    cases u with
    | nil => exact absurd rfl hne
    | cons hd tl => simp [login, get_current_user, py_truthy_dict, hu]
  · rintro (h | h) <;>
      exact ⟨by simp [login, get_current_user, py_truthy_dict, h], rfl⟩

/-- C10 witness: `C10_login` at an authenticated and at an anonymous
session. -/
theorem C10_login_witness :
    login default_config ⟨some [("sub", "a")], none⟩ =
      (.redirect (default_config.base_path ++ "/home") 307,
       ⟨some [("sub", "a")], none⟩) ∧
    login default_config ⟨none, none⟩ =
      (.redirect (auth_url default_config) 307, ⟨none, none⟩) :=
  ⟨(C10_login default_config ⟨some [("sub", "a")], none⟩).1
      [("sub", "a")] rfl (by decide),
   ((C10_login default_config ⟨none, none⟩).2 (Or.inl rfl)).1⟩

end Portal
